import Mathlib

/-!
Verification of the flight-offer search server (src/src/server.py).

The embedding below translates the request-shaping core of the server:
Python optional parameters become `Option` fields, Python truthiness of
optional ints/strings is modelled explicitly, environment lookups become an
explicit `Env` record, and the tool's exception handling becomes explicit
outcome types.  `json.dumps` on the flat error payloads the code builds is
modelled as direct string construction with the CPython default separators,
with string escaping restricted to quote/backslash/common control
characters (the payload messages at stake are plain ASCII).
-/

namespace AmadeusServer

/-- Python truthiness of an optional int (`None` and `0` are falsy). -/
def intOptTruthy : Option Int → Bool
  | none => false
  | some n => n != 0

/-- Python truthiness of an optional string (`None` and `""` are falsy). -/
def strOptTruthy : Option String → Bool
  | none => false
  | some s => s != ""

/-- Whitespace characters removed by Python `str.strip()`. -/
def isPyWhitespace (c : Char) : Bool :=
  c == ' ' || c == '\t' || c == '\n' || c == '\r' || c == '\x0b' || c == '\x0c'

/-- Python `str.strip()`: drop leading and trailing whitespace. -/
def pyStrip (s : String) : String :=
  String.mk (((s.data.dropWhile isPyWhitespace).reverse.dropWhile isPyWhitespace).reverse)

/-- The agent-supplied call to `search_flight_offers` (its keyword
arguments; `ctx` carries no data used by the function and is omitted).
`max` defaults to `some 250` mirroring the Python default `max: int = 250`. -/
structure SearchRequest where
  originLocationCode : String
  destinationLocationCode : String
  departureDate : String
  adults : Int
  returnDate : Option String := none
  children : Option Int := none
  infants : Option Int := none
  travelClass : Option String := none
  includedAirlineCodes : Option String := none
  excludedAirlineCodes : Option String := none
  nonStop : Option Bool := none
  currencyCode : Option String := none
  maxPrice : Option Int := none
  max : Option Int := some 250
  deriving DecidableEq, Repr

/-- Error string of the adults range check (server.py line 111). -/
def adultsErrMsg : String := "Adults must be between 1 and 9"

/-- Error string of the seated-travelers check (server.py line 114). -/
def seatedErrMsg : String :=
  "Total number of seated travelers (adults + children) cannot exceed 9"

/-- Error string of the infants check (server.py line 117). -/
def infantsErrMsg : String := "Number of infants cannot exceed number of adults"

/-- The three validation checks of `search_flight_offers`
(server.py lines 109-117), in source order, including the Python
truthiness guards (`if adults and ...`, `if children and infants and
adults and ...`, `if infants and adults and ...`).  Returns the error
message of the first failing check, or `none` when validation passes. -/
def validate (r : SearchRequest) : Option String :=
  if r.adults ≠ 0 ∧ ¬(1 ≤ r.adults ∧ r.adults ≤ 9) then
    some adultsErrMsg
  else if intOptTruthy r.children ∧ intOptTruthy r.infants ∧ r.adults ≠ 0 ∧
      9 < r.adults + r.children.getD 0 then
    some seatedErrMsg
  else if intOptTruthy r.infants ∧ r.adults ≠ 0 ∧ r.adults < r.infants.getD 0 then
    some infantsErrMsg
  else
    none

/-- The `params` dict forwarded to the provider (server.py lines 137-171).
A `none` field means the key is absent from the dict; the four required
keys are always present.  Key insertion order in the source is fixed, so a
record is a faithful model of the dict. -/
structure Params where
  originLocationCode : String
  destinationLocationCode : String
  departureDate : String
  adults : Int
  returnDate : Option String
  children : Option Int
  infants : Option Int
  travelClass : Option String
  includedAirlineCodes : Option String
  excludedAirlineCodes : Option String
  nonStop : Option Bool
  currencyCode : Option String
  maxPrice : Option Int
  max : Option Int
  deriving DecidableEq, Repr

/-- Construction of the `params` dict (server.py lines 137-171):
required fields copied verbatim; `returnDate`/`travelClass`/`currencyCode`
forwarded when truthy; `children`/`infants`/`maxPrice`/`max` forwarded when
present and strictly positive; airline code lists forwarded when truthy and
with truthy `strip()`; `nonStop` forwarded only when it `is True`. -/
def buildParams (r : SearchRequest) : Params where
  originLocationCode := r.originLocationCode
  destinationLocationCode := r.destinationLocationCode
  departureDate := r.departureDate
  adults := r.adults
  returnDate := if strOptTruthy r.returnDate then r.returnDate else none
  children :=
    match r.children with
    | some c => if 0 < c then some c else none
    | none => none
  infants :=
    match r.infants with
    | some i => if 0 < i then some i else none
    | none => none
  travelClass := if strOptTruthy r.travelClass then r.travelClass else none
  includedAirlineCodes :=
    match r.includedAirlineCodes with
    | some s => if s ≠ "" ∧ pyStrip s ≠ "" then some s else none
    | none => none
  excludedAirlineCodes :=
    match r.excludedAirlineCodes with
    | some s => if s ≠ "" ∧ pyStrip s ≠ "" then some s else none
    | none => none
  nonStop :=
    match r.nonStop with
    | some true => some true
    | _ => none
  currencyCode := if strOptTruthy r.currencyCode then r.currencyCode else none
  maxPrice :=
    match r.maxPrice with
    | some m => if 0 < m then some m else none
    | none => none
  max :=
    match r.max with
    | some m => if 0 < m then some m else none
    | none => none

/-- The process environment as read by `get_amadeus_client` and written by
the HTTP middleware: the five variables the source consults.  A `none`
field is an unset variable; `some ""` is a variable set to the empty
string (falsy in Python but present). -/
structure Env where
  AMADEUS_CLIENT_ID : Option String := none
  AMADEUS_API_KEY : Option String := none
  AMADEUS_CLIENT_SECRET : Option String := none
  AMADEUS_API_SECRET : Option String := none
  AMADEUS_HOSTNAME : Option String := none
  deriving DecidableEq, Repr

/-- Python `a or b` on optional strings: `b` when `a` is falsy
(`None` or `""`), else `a`. -/
def pyOrStr (a b : Option String) : Option String :=
  if strOptTruthy a then a else b

/-- `os.environ.get("AMADEUS_CLIENT_ID") or os.environ.get("AMADEUS_API_KEY")`
(server.py line 10). -/
def resolveApiKey (e : Env) : Option String :=
  pyOrStr e.AMADEUS_CLIENT_ID e.AMADEUS_API_KEY

/-- `os.environ.get("AMADEUS_CLIENT_SECRET") or os.environ.get("AMADEUS_API_SECRET")`
(server.py line 11). -/
def resolveApiSecret (e : Env) : Option String :=
  pyOrStr e.AMADEUS_CLIENT_SECRET e.AMADEUS_API_SECRET

/-- `os.environ.get("AMADEUS_HOSTNAME", "test")` (server.py line 12). -/
def resolveHostname (e : Env) : String :=
  e.AMADEUS_HOSTNAME.getD "test"

/-- The constructed Amadeus SDK client handle: the three values the source
passes to `Client(...)` (server.py lines 22-26); construction itself is an
external SDK call modelled as a pure record build. -/
structure AmadeusClient where
  client_id : String
  client_secret : String
  hostname : String
  deriving DecidableEq, Repr

/-- The `ValueError` message raised when key or secret is falsy
(server.py lines 15-18; two adjacent Python string literals concatenate). -/
def credsNotConfiguredMsg : String :=
  "Amadeus API credentials not configured. Please provide your Amadeus API credentials when connecting to this server."

/-- `get_amadeus_client` (server.py lines 7-30): resolve key and secret
with legacy fallback, hostname with default, raise `ValueError` when
either key or secret is falsy, else construct the client.  The
`Client(...)` constructor is a pure record build in this model, so the
`except` wrapper around it is unreachable. -/
def get_amadeus_client (e : Env) : Except String AmadeusClient :=
  let k := resolveApiKey e
  let s := resolveApiSecret e
  if ¬ strOptTruthy k ∨ ¬ strOptTruthy s then
    .error credsNotConfiguredMsg
  else
    .ok ⟨k.getD "", s.getD "", resolveHostname e⟩

/-! ### JSON serialization (`json.dumps` with default separators) -/

/-- CPython JSON string escaping of one character, restricted to quote,
backslash and the common control characters (the messages serialized by
the server are plain ASCII without further control characters). -/
def escChar (c : Char) : List Char :=
  if c == '"' then ['\\', '"']
  else if c == '\\' then ['\\', '\\']
  else if c == '\n' then ['\\', 'n']
  else if c == '\r' then ['\\', 'r']
  else if c == '\t' then ['\\', 't']
  else [c]

/-- JSON escaping of a character list. -/
def escStr : List Char → List Char
  | [] => []
  | c :: cs => escChar c ++ escStr cs

/-- `json.dumps` of a Python string: quote, escape, quote. -/
def dumpsStr (s : String) : String :=
  "\"" ++ String.mk (escStr s.data) ++ "\""

/-- A Python value serializable by `json.dumps` (the provider response
body and the payload dicts the server builds). -/
inductive PyJson where
  | str (s : String)
  | num (n : Int)
  | bool (b : Bool)
  | null
  | arr (elems : List PyJson)
  | obj (fields : List (String × PyJson))

mutual

/-- `json.dumps` with CPython default separators `", "` and `": "`. -/
def pyDumps : PyJson → String
  | .str s => dumpsStr s
  | .num n => toString n
  | .bool true => "true"
  | .bool false => "false"
  | .null => "null"
  | .arr l => "[" ++ pyDumpsElems l ++ "]"
  | .obj l => "\x7b" ++ pyDumpsFields l ++ "\x7d"

/-- Serialization of array elements, `", "`-separated. -/
def pyDumpsElems : List PyJson → String
  | [] => ""
  | [x] => pyDumps x
  | x :: y :: xs => pyDumps x ++ ", " ++ pyDumpsElems (y :: xs)

/-- Serialization of object fields, `", "`-separated, `": "` after keys. -/
def pyDumpsFields : List (String × PyJson) → String
  | [] => ""
  | [(k, v)] => dumpsStr k ++ ": " ++ pyDumps v
  | (k, v) :: f :: fs => dumpsStr k ++ ": " ++ pyDumps v ++ ", " ++ pyDumpsFields (f :: fs)

end

/-- `json.dumps({"error": msg})`: the single-key error payload used by
the validation checks and the upstream-error handlers. -/
def errJson (msg : String) : String :=
  "\x7b\"error\": " ++ dumpsStr msg ++ "\x7d"

/-- `json.dumps` of the three-key payload returned when
`get_amadeus_client` raises `ValueError` (server.py lines 124-128). -/
def configErrJson (m : String) : String :=
  "\x7b\"error\": \"Configuration required\", \"message\": " ++ dumpsStr m ++
    ", \"details\": \"Please ensure your Amadeus API credentials are properly configured.\"\x7d"

/-- `json.dumps` of the two-key payload returned when client creation
fails with a non-`ValueError` exception (server.py lines 131-134). -/
def initErrJson (m : String) : String :=
  "\x7b\"error\": \"Service initialization failed\", \"message\": " ++ dumpsStr m ++ "\x7d"

/-! ### The tool pipeline -/

/-- Outcome of the `get_amadeus_client()` call site inside the `try` of
`search_flight_offers` (server.py lines 120-134): a client, a raised
`ValueError`, or any other raised exception (each carrying `str(e)`). -/
inductive ClientOutcome where
  | ok (c : AmadeusClient)
  | valueError (msg : String)
  | otherError (msg : String)
  deriving DecidableEq, Repr

/-- Outcome of the provider call
`amadeus_client.shopping.flight_offers_search.get(**params)`
(server.py lines 178-187): a response body, a raised `ResponseError`,
or any other raised exception (each error carrying its `str`). -/
inductive ApiOutcome where
  | success (body : PyJson)
  | responseError (msg : String)
  | otherError (msg : String)

/-- `search_flight_offers` (server.py lines 72-187).  The external
collaborators — credential resolution and the provider call — enter as
explicit outcome arguments; the provider is only consulted with the built
`params`, and the client outcome is only consulted after validation
passes, mirroring the source's control flow. -/
def searchFlightOffers (r : SearchRequest) (getClient : ClientOutcome)
    (api : AmadeusClient → Params → ApiOutcome) : String :=
  match validate r with
  | some msg => errJson msg
  | none =>
    match getClient with
    | .valueError e => configErrJson e
    | .otherError e => initErrJson e
    | .ok client =>
      match api client (buildParams r) with
      | .success body => pyDumps body
      | .responseError e => errJson ("Amadeus API error: " ++ e)
      | .otherError e => errJson ("Unexpected error: " ++ e)

/-! ### HTTP middleware (per-request configuration extraction) -/

/-- The query parameters consulted by `config_middleware`
(server.py lines 235-299). -/
structure QueryParams where
  config : Option String := none
  amadeusClientId : Option String := none
  amadeusClientSecret : Option String := none
  amadeusHostname : Option String := none
  deriving DecidableEq, Repr

/-- The decoded Smithery config structure: the three fields the
middleware reads from the base64-decoded JSON blob. -/
structure ConfigData where
  amadeusClientId : Option String := none
  amadeusClientSecret : Option String := none
  amadeusHostname : Option String := none
  deriving DecidableEq, Repr

/-- Environment mutation performed in the decoded-blob branch
(server.py lines 258-273): set id/secret when present in the blob,
set hostname to the blob's value or the `"test"` default. -/
def applyConfigData (cd : ConfigData) (e : Env) : Env :=
  let e1 := match cd.amadeusClientId with
    | some v => { e with AMADEUS_CLIENT_ID := some v }
    | none => e
  let e2 := match cd.amadeusClientSecret with
    | some v => { e1 with AMADEUS_CLIENT_SECRET := some v }
    | none => e1
  match cd.amadeusHostname with
  | some v => { e2 with AMADEUS_HOSTNAME := some v }
  | none => { e2 with AMADEUS_HOSTNAME := some "test" }

/-- Environment mutation performed in the individual-parameters branch
(server.py lines 279-299): set id/secret when present in the query,
set hostname to the query's value or the `"test"` default. -/
def applyIndividualParams (q : QueryParams) (e : Env) : Env :=
  let e1 := match q.amadeusClientId with
    | some v => { e with AMADEUS_CLIENT_ID := some v }
    | none => e
  let e2 := match q.amadeusClientSecret with
    | some v => { e1 with AMADEUS_CLIENT_SECRET := some v }
    | none => e1
  match q.amadeusHostname with
  | some v => { e2 with AMADEUS_HOSTNAME := some v }
  | none => { e2 with AMADEUS_HOSTNAME := some "test" }

/-- `config_middleware` (server.py lines 234-303) as an environment
transformer.  The base64+JSON decoding of the blob is performed by the
standard library (external collaborator) and enters as the
`decodeConfig` argument; `none` models a raised decode exception, which
the source catches, leaving the environment unchanged. -/
def config_middleware (decodeConfig : String → Option ConfigData)
    (q : QueryParams) (e : Env) : Env :=
  match q.config with
  | some blob =>
    match decodeConfig blob with
    | some cd => applyConfigData cd e
    | none => e
  | none => applyIndividualParams q e

/-! ### String-scanning helpers for the error-message claims -/

/-- Whether `pat` is a prefix of the second list. -/
def startsWithL : List Char → List Char → Bool
  | [], _ => true
  | _ :: _, [] => false
  | p :: ps, c :: cs => p == c && startsWithL ps cs

/-- Whether `pat` occurs as a contiguous substring. -/
def hasSubL (pat : List Char) : List Char → Bool
  | [] => pat.isEmpty
  | c :: cs => startsWithL pat (c :: cs) || hasSubL pat cs

/-- Whether string `s` mentions `pat` as a substring. -/
def strMentions (s pat : String) : Bool := hasSubL pat.data s.data

/-- Every double-quote character in the list is consumed as part of a
backslash escape: the shape of any JSON-escaped string body. -/
def noRawQuote : List Char → Bool
  | [] => true
  | c :: rest =>
    if c == '"' then false
    else if c == '\\' then
      match rest with
      | [] => true
      | _ :: rest2 => noRawQuote rest2
    else noRawQuote rest

/-! ## Claims -/

/-- C1 (counterexample): `adults = 0` lies outside [1,9], yet the call is
not rejected by the adults check: the credential-resolution outcome shapes
the result (its message appears in the returned payload), and the result
is not the adults-range error payload. -/
theorem c1_counterexample :
    ¬ (1 ≤ (0 : Int) ∧ (0 : Int) ≤ 9) ∧
    searchFlightOffers
      { originLocationCode := "SYD", destinationLocationCode := "BKK",
        departureDate := "2023-05-02", adults := 0 }
      (.valueError "no creds") (fun _ _ => .responseError "x")
      = configErrJson "no creds" ∧
    configErrJson "no creds" ≠ errJson adultsErrMsg :=
  ⟨by decide, by decide, by decide⟩

/-- C1 (amended): for every call whose `adults` is nonzero and outside
[1,9], the tool returns the adults-range error payload, and the result is
invariant under the credential-resolution and provider stubs — neither is
consulted.  (`adults = 0` is falsy in Python and skips the check.) -/
theorem c1_adults_range_rejection (r : SearchRequest)
    (h0 : r.adults ≠ 0) (h : ¬ (1 ≤ r.adults ∧ r.adults ≤ 9))
    (g g' : ClientOutcome) (api api' : AmadeusClient → Params → ApiOutcome) :
    searchFlightOffers r g api = errJson adultsErrMsg ∧
    searchFlightOffers r g api = searchFlightOffers r g' api' := by
  have hv : validate r = some adultsErrMsg := by
    unfold validate
    rw [if_pos ⟨h0, h⟩]
  exact ⟨by simp [searchFlightOffers, hv], by simp [searchFlightOffers, hv]⟩

/-- C1 (witness): concrete instance at `adults = 10`. -/
theorem c1_witness :
    (10 : Int) ≠ 0 ∧ ¬ (1 ≤ (10 : Int) ∧ (10 : Int) ≤ 9) ∧
    searchFlightOffers
      { originLocationCode := "SYD", destinationLocationCode := "BKK",
        departureDate := "2023-05-02", adults := 10 }
      (.valueError "a") (fun _ _ => .responseError "b")
      = errJson adultsErrMsg :=
  ⟨by decide, by decide,
    (c1_adults_range_rejection _ (by decide) (by decide)
      (.valueError "a") (.ok ⟨"k", "s", "test"⟩) _ (fun _ _ => .responseError "b")).1⟩

/-- C2 (counterexample): `adults = 0`, `children = 10`, `infants = 1`
satisfy infants > 0, children > 0 and adults + children > 9, yet
validation passes: `adults = 0` is falsy, so the seated-total conjunction
is skipped entirely. -/
theorem c2_counterexample :
    (0 : Int) < 1 ∧ (0 : Int) < 10 ∧ (9 : Int) < 0 + 10 ∧
    validate
      { originLocationCode := "SYD", destinationLocationCode := "BKK",
        departureDate := "2023-05-02", adults := 0, children := some 10,
        infants := some 1 } = none := by
  decide

/-- C2 (amended): when `adults` ∈ [1,9], `children` is present and
positive, and adults + children > 9: with `infants` present and positive
the call is rejected with the seated-travelers error, while with
`infants` zero or absent validation passes entirely. -/
theorem c2_seated_travelers_asymmetry (r : SearchRequest) (c : Int)
    (hc : r.children = some c) (h1 : 1 ≤ r.adults) (h9 : r.adults ≤ 9)
    (hcpos : 0 < c) (hsum : 9 < r.adults + c) :
    (∀ i, r.infants = some i → 0 < i → validate r = some seatedErrMsg) ∧
    ((r.infants = none ∨ r.infants = some 0) → validate r = none) := by
  have ha0 : r.adults ≠ 0 := by omega
  have hrange : ¬ (r.adults ≠ 0 ∧ ¬ (1 ≤ r.adults ∧ r.adults ≤ 9)) := by
    intro hcon
    exact hcon.2 ⟨h1, h9⟩
  constructor
  · intro i hi hipos
    unfold validate
    rw [if_neg hrange, if_pos]
    refine ⟨?_, ?_, ha0, ?_⟩
    · simp [intOptTruthy, hc]
      omega
    · simp [intOptTruthy, hi]
      omega
    · simp [hc]
      omega
  · intro hzero
    have hinf : intOptTruthy r.infants = false := by
      rcases hzero with h | h <;> simp [intOptTruthy, h]
    unfold validate
    rw [if_neg hrange, if_neg, if_neg]
    · intro hcon
      rw [hinf] at hcon
      exact absurd hcon.1 (by simp)
    · intro hcon
      rw [hinf] at hcon
      exact absurd hcon.2.1 (by simp)

/-- C2 (witness): concrete instances at adults 2, children 8, with
infants 1 (rejected) and infants absent (passes). -/
theorem c2_witness :
    validate
      { originLocationCode := "SYD", destinationLocationCode := "BKK",
        departureDate := "2023-05-02", adults := 2, children := some 8,
        infants := some 1 } = some seatedErrMsg ∧
    validate
      { originLocationCode := "SYD", destinationLocationCode := "BKK",
        departureDate := "2023-05-02", adults := 2, children := some 8 }
      = none :=
  ⟨(c2_seated_travelers_asymmetry _ 8 rfl (by decide) (by decide) (by decide)
      (by decide)).1 1 rfl (by decide),
   (c2_seated_travelers_asymmetry _ 8 rfl (by decide) (by decide) (by decide)
      (by decide)).2 (Or.inl rfl)⟩

/-- C3 (counterexample): `adults = 0`, `infants = 1` — both present with
infants > adults — yet validation passes (`adults = 0` is falsy, skipping
the infants check) and the credential step is reached. -/
theorem c3_counterexample :
    (0 : Int) < 1 ∧
    validate
      { originLocationCode := "SYD", destinationLocationCode := "BKK",
        departureDate := "2023-05-02", adults := 0, infants := some 1 } = none ∧
    searchFlightOffers
      { originLocationCode := "SYD", destinationLocationCode := "BKK",
        departureDate := "2023-05-02", adults := 0, infants := some 1 }
      (.valueError "no creds") (fun _ _ => .responseError "x")
      = configErrJson "no creds" := by
  refine ⟨by decide, by decide, by decide⟩

/-- C3 (amended): when `infants` is present with infants > adults, the
call is rejected with the infants error and neither stub is consulted —
provided `adults` ∈ [1,9] (nonzero out-of-range adults trigger the adults
error first; `adults = 0` skips the check) and the earlier seated-total
check does not fire. -/
theorem c3_infants_exceed_adults (r : SearchRequest) (i : Int)
    (hi : r.infants = some i) (h1 : 1 ≤ r.adults) (h9 : r.adults ≤ 9)
    (hgt : r.adults < i)
    (hnoseat : ∀ c, r.children = some c → c ≠ 0 → r.adults + c ≤ 9)
    (g g' : ClientOutcome) (api api' : AmadeusClient → Params → ApiOutcome) :
    searchFlightOffers r g api = errJson infantsErrMsg ∧
    searchFlightOffers r g api = searchFlightOffers r g' api' := by
  have ha0 : r.adults ≠ 0 := by omega
  have hrange : ¬ (r.adults ≠ 0 ∧ ¬ (1 ≤ r.adults ∧ r.adults ≤ 9)) := by
    intro hcon
    exact hcon.2 ⟨h1, h9⟩
  have hseat : ¬ (intOptTruthy r.children ∧ intOptTruthy r.infants ∧
      r.adults ≠ 0 ∧ 9 < r.adults + r.children.getD 0) := by
    intro hcon
    rcases hch : r.children with _ | c
    · rw [hch] at hcon
      exact absurd hcon.1 (by simp [intOptTruthy])
    · rw [hch] at hcon
      have hcne : c ≠ 0 := by
        have := hcon.1
        simpa [intOptTruthy] using this
      have := hnoseat c hch hcne
      have hlt := hcon.2.2.2
      simp [hch] at hlt
      omega
  have hv : validate r = some infantsErrMsg := by
    unfold validate
    rw [if_neg hrange, if_neg hseat, if_pos]
    refine ⟨?_, ha0, ?_⟩
    · simp [intOptTruthy, hi]
      omega
    · simp [hi]
      omega
  exact ⟨by simp [searchFlightOffers, hv], by simp [searchFlightOffers, hv]⟩

/-- C3 (witness): concrete instance at adults 1, infants 2. -/
theorem c3_witness :
    validate
      { originLocationCode := "SYD", destinationLocationCode := "BKK",
        departureDate := "2023-05-02", adults := 1, infants := some 2 }
      = some infantsErrMsg ∧
    searchFlightOffers
      { originLocationCode := "SYD", destinationLocationCode := "BKK",
        departureDate := "2023-05-02", adults := 1, infants := some 2 }
      (.valueError "a") (fun _ _ => .responseError "b")
      = errJson infantsErrMsg := by
  have h := c3_infants_exceed_adults
    { originLocationCode := "SYD", destinationLocationCode := "BKK",
      departureDate := "2023-05-02", adults := 1, infants := some 2 }
    2 rfl (by decide) (by decide) (by decide)
    (by intro c hc _; cases hc)
    (.valueError "a") (.ok ⟨"k", "s", "test"⟩)
    (fun _ _ => .responseError "b") (fun _ _ => .responseError "b")
  exact ⟨by decide, h.1⟩

/-- C10: the four required fields are always forwarded to the provider
mapping exactly as supplied — no format or emptiness validation — and
`adults = 0` passes validation outright, since every check is
truthiness-guarded on `adults`. -/
theorem c10_required_fields_unvalidated (r : SearchRequest) :
    (buildParams r).originLocationCode = r.originLocationCode ∧
    (buildParams r).destinationLocationCode = r.destinationLocationCode ∧
    (buildParams r).departureDate = r.departureDate ∧
    (buildParams r).adults = r.adults ∧
    (r.adults = 0 → validate r = none) := by
  refine ⟨rfl, rfl, rfl, rfl, ?_⟩
  intro h0
  simp [validate, h0]

/-- C10 (witness): empty-string origin/destination/date and adults 0 pass
validation and are forwarded unchanged. -/
theorem c10_witness :
    (buildParams
      { originLocationCode := "", destinationLocationCode := "",
        departureDate := "", adults := 0 }).originLocationCode = "" ∧
    (buildParams
      { originLocationCode := "", destinationLocationCode := "",
        departureDate := "", adults := 0 }).departureDate = "" ∧
    (buildParams
      { originLocationCode := "", destinationLocationCode := "",
        departureDate := "", adults := 0 }).adults = 0 ∧
    validate
      { originLocationCode := "", destinationLocationCode := "",
        departureDate := "", adults := 0 } = none := by
  have h := c10_required_fields_unvalidated
    { originLocationCode := "", destinationLocationCode := "",
      departureDate := "", adults := 0 }
  exact ⟨h.1, h.2.2.1, h.2.2.2.1, h.2.2.2.2 rfl⟩

/-- C4: for every call that passes validation, the forwarded parameter
mapping omits airline-code fields that are empty or all-whitespace, omits
children/infants/maxPrice/max when zero or non-positive, omits nonStop
when false or absent and includes it exactly when true, and includes
returnDate/travelClass/currencyCode only when present and non-empty. -/
theorem c4_optional_field_forwarding (r : SearchRequest)
    (hv : validate r = none) :
    (∀ s, r.includedAirlineCodes = some s → pyStrip s = "" →
      (buildParams r).includedAirlineCodes = none) ∧
    (∀ s, r.excludedAirlineCodes = some s → pyStrip s = "" →
      (buildParams r).excludedAirlineCodes = none) ∧
    (∀ c, r.children = some c → c ≤ 0 → (buildParams r).children = none) ∧
    (∀ i, r.infants = some i → i ≤ 0 → (buildParams r).infants = none) ∧
    (∀ m, r.maxPrice = some m → m ≤ 0 → (buildParams r).maxPrice = none) ∧
    (∀ m, r.max = some m → m ≤ 0 → (buildParams r).max = none) ∧
    ((r.nonStop = none ∨ r.nonStop = some false) →
      (buildParams r).nonStop = none) ∧
    (r.nonStop = some true → (buildParams r).nonStop = some true) ∧
    ((r.returnDate = none ∨ r.returnDate = some "") →
      (buildParams r).returnDate = none) ∧
    ((r.travelClass = none ∨ r.travelClass = some "") →
      (buildParams r).travelClass = none) ∧
    ((r.currencyCode = none ∨ r.currencyCode = some "") →
      (buildParams r).currencyCode = none) := by
  refine ⟨?_, ?_, ?_, ?_, ?_, ?_, ?_, ?_, ?_, ?_, ?_⟩
  · intro s hs hstrip
    simp [buildParams, hs, hstrip]
  · intro s hs hstrip
    simp [buildParams, hs, hstrip]
  · intro c hc hle
    simp only [buildParams, hc]
    rw [if_neg (by omega)]
  · intro i hi hle
    simp only [buildParams, hi]
    rw [if_neg (by omega)]
  · intro m hm hle
    simp only [buildParams, hm]
    rw [if_neg (by omega)]
  · intro m hm hle
    simp only [buildParams, hm]
    rw [if_neg (by omega)]
  · intro h
    rcases h with h | h <;> simp [buildParams, h]
  · intro h
    simp [buildParams, h]
  · intro h
    rcases h with h | h <;> simp [buildParams, strOptTruthy, h]
  · intro h
    rcases h with h | h <;> simp [buildParams, strOptTruthy, h]
  · intro h
    rcases h with h | h <;> simp [buildParams, strOptTruthy, h]

/-- C4 (witness): a validated call carrying a whitespace airline code,
zero counts/prices/max, `nonStop = false` and empty optional strings
forwards none of them. -/
theorem c4_witness :
    validate
      { originLocationCode := "SYD", destinationLocationCode := "BKK",
        departureDate := "2023-05-02", adults := 1, returnDate := some "",
        children := some 0, infants := some 0, travelClass := some "",
        includedAirlineCodes := some " ", excludedAirlineCodes := some "",
        nonStop := some false, currencyCode := some "", maxPrice := some 0,
        max := some 0 } = none ∧
    (buildParams
      { originLocationCode := "SYD", destinationLocationCode := "BKK",
        departureDate := "2023-05-02", adults := 1, returnDate := some "",
        children := some 0, infants := some 0, travelClass := some "",
        includedAirlineCodes := some " ", excludedAirlineCodes := some "",
        nonStop := some false, currencyCode := some "", maxPrice := some 0,
        max := some 0 }).includedAirlineCodes = none ∧
    (buildParams
      { originLocationCode := "SYD", destinationLocationCode := "BKK",
        departureDate := "2023-05-02", adults := 1, returnDate := some "",
        children := some 0, infants := some 0, travelClass := some "",
        includedAirlineCodes := some " ", excludedAirlineCodes := some "",
        nonStop := some false, currencyCode := some "", maxPrice := some 0,
        max := some 0 }).children = none ∧
    (buildParams
      { originLocationCode := "SYD", destinationLocationCode := "BKK",
        departureDate := "2023-05-02", adults := 1, returnDate := some "",
        children := some 0, infants := some 0, travelClass := some "",
        includedAirlineCodes := some " ", excludedAirlineCodes := some "",
        nonStop := some false, currencyCode := some "", maxPrice := some 0,
        max := some 0 }).nonStop = none ∧
    (buildParams
      { originLocationCode := "SYD", destinationLocationCode := "BKK",
        departureDate := "2023-05-02", adults := 1, returnDate := some "",
        children := some 0, infants := some 0, travelClass := some "",
        includedAirlineCodes := some " ", excludedAirlineCodes := some "",
        nonStop := some false, currencyCode := some "", maxPrice := some 0,
        max := some 0 }).maxPrice = none := by
  have h := c4_optional_field_forwarding
    { originLocationCode := "SYD", destinationLocationCode := "BKK",
      departureDate := "2023-05-02", adults := 1, returnDate := some "",
      children := some 0, infants := some 0, travelClass := some "",
      includedAirlineCodes := some " ", excludedAirlineCodes := some "",
      nonStop := some false, currencyCode := some "", maxPrice := some 0,
      max := some 0 } (by decide)
  exact ⟨by decide, h.1 " " rfl (by decide), h.2.2.1 0 rfl (by decide),
    h.2.2.2.2.2.2.1 (Or.inr rfl), h.2.2.2.2.1 0 rfl (by decide)⟩

/-- C5 (counterexample): with the primary key name set to the empty
string and the legacy key name set, resolution yields the legacy value
rather than the primary one — fallback is driven by Python falsiness, not
by absence, so a set-but-empty primary does not win. -/
theorem c5_counterexample :
    ({ AMADEUS_CLIENT_ID := some "", AMADEUS_API_KEY := some "legacy-key",
       AMADEUS_CLIENT_SECRET := some "sec" } : Env).AMADEUS_CLIENT_ID = some "" ∧
    resolveApiKey
      { AMADEUS_CLIENT_ID := some "", AMADEUS_API_KEY := some "legacy-key",
        AMADEUS_CLIENT_SECRET := some "sec" } = some "legacy-key" ∧
    get_amadeus_client
      { AMADEUS_CLIENT_ID := some "", AMADEUS_API_KEY := some "legacy-key",
        AMADEUS_CLIENT_SECRET := some "sec" }
      = .ok ⟨"legacy-key", "sec", "test"⟩ ∧
    some "legacy-key" ≠ some "" := by
  refine ⟨rfl, by decide, by rfl, by decide⟩

/-- C5 (amended): key/secret resolution prefers the primary environment
name whenever it is truthy (set and non-empty) and falls back to the
legacy name when the primary is absent or empty; an absent hostname
variable resolves to the sandbox default "test". -/
theorem c5_credential_resolution (e : Env) :
    (strOptTruthy e.AMADEUS_CLIENT_ID = true →
      resolveApiKey e = e.AMADEUS_CLIENT_ID) ∧
    (strOptTruthy e.AMADEUS_CLIENT_ID = false →
      resolveApiKey e = e.AMADEUS_API_KEY) ∧
    (strOptTruthy e.AMADEUS_CLIENT_SECRET = true →
      resolveApiSecret e = e.AMADEUS_CLIENT_SECRET) ∧
    (strOptTruthy e.AMADEUS_CLIENT_SECRET = false →
      resolveApiSecret e = e.AMADEUS_API_SECRET) ∧
    (e.AMADEUS_HOSTNAME = none → resolveHostname e = "test") := by
  refine ⟨?_, ?_, ?_, ?_, ?_⟩ <;> intro h <;>
    simp [resolveApiKey, resolveApiSecret, resolveHostname, pyOrStr, h]

/-- C5 (witness): with both primary and legacy names set to non-empty
values the primary wins, and an absent hostname resolves to "test". -/
theorem c5_witness :
    resolveApiKey
      { AMADEUS_CLIENT_ID := some "prim", AMADEUS_API_KEY := some "leg",
        AMADEUS_CLIENT_SECRET := some "psec", AMADEUS_API_SECRET := some "lsec" }
      = some "prim" ∧
    resolveApiSecret
      { AMADEUS_CLIENT_ID := some "prim", AMADEUS_API_KEY := some "leg",
        AMADEUS_CLIENT_SECRET := some "psec", AMADEUS_API_SECRET := some "lsec" }
      = some "psec" ∧
    resolveHostname
      { AMADEUS_CLIENT_ID := some "prim", AMADEUS_API_KEY := some "leg",
        AMADEUS_CLIENT_SECRET := some "psec", AMADEUS_API_SECRET := some "lsec" }
      = "test" := by
  have h := c5_credential_resolution
    { AMADEUS_CLIENT_ID := some "prim", AMADEUS_API_KEY := some "leg",
      AMADEUS_CLIENT_SECRET := some "psec", AMADEUS_API_SECRET := some "lsec" }
  exact ⟨h.1 (by decide), h.2.2.1 (by decide), h.2.2.2.2 rfl⟩

/-- C6 (counterexample): with no credential variables set, resolution
fails with a fixed message that names none of the four configuration
variable names — it is not the case that the message states which two
variables must be provided. -/
theorem c6_counterexample :
    get_amadeus_client {} = .error credsNotConfiguredMsg ∧
    strMentions credsNotConfiguredMsg "AMADEUS_CLIENT_ID" = false ∧
    strMentions credsNotConfiguredMsg "AMADEUS_CLIENT_SECRET" = false ∧
    strMentions credsNotConfiguredMsg "AMADEUS_API_KEY" = false ∧
    strMentions credsNotConfiguredMsg "AMADEUS_API_SECRET" = false := by
  refine ⟨by rfl, by decide, by decide, by decide, by decide⟩

/-- C6 (amended): for every environment in which the key or the secret is
unresolvable (falsy through both its primary and legacy names), client
creation fails with the fixed credentials-not-configured error message —
a message that asks for Amadeus API credentials but does not name the
configuration variables. -/
theorem c6_missing_credentials_error (e : Env)
    (h : strOptTruthy (resolveApiKey e) = false ∨
         strOptTruthy (resolveApiSecret e) = false) :
    get_amadeus_client e = .error credsNotConfiguredMsg := by
  unfold get_amadeus_client
  rcases h with h | h <;> simp [h]

/-- C6 (witness): the empty environment fails with the fixed message. -/
theorem c6_witness :
    strOptTruthy (resolveApiKey {}) = false ∧
    get_amadeus_client {} = .error credsNotConfiguredMsg :=
  ⟨by decide, c6_missing_credentials_error {} (Or.inl (by decide))⟩

/-- C7: per-request configuration extraction supports both the combined
encoded blob and the individual query parameters; when the `config`
parameter is present it takes precedence — the resulting environment does
not depend on the individual fields — and when it is absent the
individual fields are applied (with the "test" hostname default). -/
theorem c7_config_middleware (decode : String → Option ConfigData)
    (e : Env) (q : QueryParams) :
    (∀ blob, q.config = some blob →
      (∀ q', q'.config = some blob →
        config_middleware decode q e = config_middleware decode q' e) ∧
      (∀ cd, decode blob = some cd →
        config_middleware decode q e = applyConfigData cd e)) ∧
    (q.config = none →
      config_middleware decode q e = applyIndividualParams q e ∧
      ((config_middleware decode q e).AMADEUS_CLIENT_ID =
        match q.amadeusClientId with
        | some v => some v
        | none => e.AMADEUS_CLIENT_ID) ∧
      ((config_middleware decode q e).AMADEUS_CLIENT_SECRET =
        match q.amadeusClientSecret with
        | some v => some v
        | none => e.AMADEUS_CLIENT_SECRET) ∧
      (config_middleware decode q e).AMADEUS_HOSTNAME =
        some (q.amadeusHostname.getD "test")) := by
  constructor
  · intro blob hq
    constructor
    · intro q' hq'
      simp [config_middleware, hq, hq']
    · intro cd hcd
      simp [config_middleware, hq, hcd]
  · intro hq
    refine ⟨by simp [config_middleware, hq], ?_, ?_, ?_⟩ <;>
      rcases h1 : q.amadeusClientId with _ | v1 <;>
      rcases h2 : q.amadeusClientSecret with _ | v2 <;>
      rcases h3 : q.amadeusHostname with _ | v3 <;>
      simp [config_middleware, applyIndividualParams, hq, h1, h2, h3]

/-- C7 (witness): a concrete decoder and request in both modes — blob
present (individual fields ignored, blob applied) and blob absent
(individual fields applied). -/
theorem c7_witness :
    config_middleware (fun _ => some ⟨some "id", some "sec", none⟩)
      { config := some "BLOB", amadeusClientId := some "ignored-a" } {}
      = config_middleware (fun _ => some ⟨some "id", some "sec", none⟩)
        { config := some "BLOB", amadeusClientId := some "ignored-b",
          amadeusClientSecret := some "ignored-c" } {} ∧
    config_middleware (fun _ => some ⟨some "id", some "sec", none⟩)
      { config := some "BLOB", amadeusClientId := some "ignored-a" } {}
      = applyConfigData ⟨some "id", some "sec", none⟩ {} ∧
    (config_middleware (fun _ => some ⟨some "id", some "sec", none⟩)
      { amadeusClientId := some "qid" } {}).AMADEUS_CLIENT_ID = some "qid" ∧
    (config_middleware (fun _ => some ⟨some "id", some "sec", none⟩)
      { amadeusClientId := some "qid" } {}).AMADEUS_HOSTNAME = some "test" := by
  have h1 := c7_config_middleware (fun _ => some ⟨some "id", some "sec", none⟩)
    {} { config := some "BLOB", amadeusClientId := some "ignored-a" }
  have h2 := c7_config_middleware (fun _ => some ⟨some "id", some "sec", none⟩)
    {} { amadeusClientId := some "qid" }
  exact ⟨(h1.1 "BLOB" rfl).1 _ rfl, (h1.1 "BLOB" rfl).2 _ rfl,
    (h2.2 rfl).2.1, (h2.2 rfl).2.2.2⟩

/-- C9: on a successful upstream call, the tool's return value is exactly
the JSON serialization of the provider's response body, with no
reshaping. -/
theorem c9_success_passthrough (r : SearchRequest) (c : AmadeusClient)
    (api : AmadeusClient → Params → ApiOutcome) (body : PyJson)
    (hv : validate r = none) (hapi : api c (buildParams r) = .success body) :
    searchFlightOffers r (.ok c) api = pyDumps body := by
  simp [searchFlightOffers, hv, hapi]

/-- C9 (witness): a stubbed provider returning a concrete body has that
body's serialization forwarded unmodified. -/
theorem c9_witness :
    validate
      { originLocationCode := "SYD", destinationLocationCode := "BKK",
        departureDate := "2023-05-02", adults := 1 } = none ∧
    searchFlightOffers
      { originLocationCode := "SYD", destinationLocationCode := "BKK",
        departureDate := "2023-05-02", adults := 1 }
      (.ok ⟨"k", "s", "test"⟩)
      (fun _ _ => ApiOutcome.success (.obj [("data", .arr [])]))
      = pyDumps (.obj [("data", .arr [])]) :=
  ⟨by decide,
   c9_success_passthrough _ ⟨"k", "s", "test"⟩ _ _ (by decide) rfl⟩

/-- Unfolding equation of `noRawQuote` at a cons cell. -/
theorem noRawQuote_cons (c : Char) (rest : List Char) :
    noRawQuote (c :: rest) =
      if c == '"' then false
      else if c == '\\' then
        match rest with
        | [] => true
        | _ :: rest2 => noRawQuote rest2
      else noRawQuote rest := by
  rw [noRawQuote.eq_def]

/-- Scanning past one escaped character: `escChar` output never
introduces an unescaped double quote. -/
theorem noRawQuote_escChar_append (c : Char) (rest : List Char) :
    noRawQuote (escChar c ++ rest) = noRawQuote rest := by
  by_cases h1 : c = '"'
  · subst h1; rfl
  · by_cases h2 : c = '\\'
    · subst h2; rfl
    · by_cases h3 : c = '\n'
      · subst h3; rfl
      · by_cases h4 : c = '\r'
        · subst h4; rfl
        · by_cases h5 : c = '\t'
          · subst h5; rfl
          · have hesc : escChar c = [c] := by
              simp [escChar, h1, h2, h3, h4, h5]
            rw [hesc]
            show noRawQuote (c :: rest) = noRawQuote rest
            rw [noRawQuote_cons, if_neg (by simp [h1]), if_neg (by simp [h2])]

/-- A JSON-escaped string body never contains an unescaped double
quote. -/
theorem noRawQuote_escStr (l : List Char) : noRawQuote (escStr l) = true := by
  induction l with
  | nil => rfl
  | cons c cs ih =>
    show noRawQuote (escChar c ++ escStr cs) = true
    rw [noRawQuote_escChar_append, ih]

/-- C8 (counterexample): when credential resolution raises `ValueError`,
the returned string is the three-key configuration payload — and that
string is not `json.dumps` of a single-key error object for any message,
since its body carries a raw double quote, which JSON string escaping
never emits. -/
theorem c8_counterexample :
    searchFlightOffers
      { originLocationCode := "SYD", destinationLocationCode := "BKK",
        departureDate := "2023-05-02", adults := 1 }
      (.valueError "boom") (fun _ _ => .responseError "x")
      = configErrJson "boom" ∧
    ¬ ∃ msg, configErrJson "boom" = errJson msg := by
  constructor
  · decide
  · rintro ⟨msg, h⟩
    have hA : configErrJson "boom" =
        ("\x7b\"error\": \"" ++
         "Configuration required\", \"message\": \"boom\", \"details\": \"Please ensure your Amadeus API credentials are properly configured.") ++
        "\"\x7d" := by decide
    have hB : errJson msg =
        ("\x7b\"error\": \"" ++ String.mk (escStr msg.data)) ++ "\"\x7d" := by
      show ("\x7b\"error\": " ++ (("\"" ++ String.mk (escStr msg.data)) ++ "\"")) ++ "\x7d"
          = ("\x7b\"error\": \"" ++ String.mk (escStr msg.data)) ++ "\"\x7d"
      rw [String.append_assoc "\"" (String.mk (escStr msg.data)) "\""]
      rw [← String.append_assoc "\x7b\"error\": " "\""
            (String.mk (escStr msg.data) ++ "\"")]
      rw [show ("\x7b\"error\": " : String) ++ "\"" = "\x7b\"error\": \"" from rfl]
      rw [← String.append_assoc "\x7b\"error\": \"" (String.mk (escStr msg.data)) "\""]
      rw [String.append_assoc ("\x7b\"error\": \"" ++ String.mk (escStr msg.data)) "\"" "\x7d"]
      rw [show ("\"" : String) ++ "\x7d" = "\"\x7d" from rfl]
    rw [hA, hB] at h
    have hd := congrArg String.data h
    rw [String.data_append, String.data_append, String.data_append,
        String.data_append] at hd
    have hpre := List.append_cancel_left (List.append_cancel_right hd)
    have hmid : ("Configuration required\", \"message\": \"boom\", \"details\": \"Please ensure your Amadeus API credentials are properly configured." : String).data
        = escStr msg.data := hpre
    have htrue := noRawQuote_escStr msg.data
    rw [← hmid] at htrue
    have hfalse : noRawQuote
        ("Configuration required\", \"message\": \"boom\", \"details\": \"Please ensure your Amadeus API credentials are properly configured." : String).data
        = false := by decide
    rw [hfalse] at htrue
    exact Bool.false_ne_true htrue

/-- C8 (amended): for every request and every credential-resolution and
provider outcome, the tool returns a string, which is the serialized
provider body on success, or one of the JSON error payloads — the
single-key error object, the three-key configuration-error object, or the
two-key initialization-error object. -/
theorem c8_total_result_shape (r : SearchRequest) (g : ClientOutcome)
    (api : AmadeusClient → Params → ApiOutcome) :
    (∃ c body, g = .ok c ∧ api c (buildParams r) = .success body ∧
      searchFlightOffers r g api = pyDumps body) ∨
    (∃ m, searchFlightOffers r g api = errJson m) ∨
    (∃ m, searchFlightOffers r g api = configErrJson m) ∨
    (∃ m, searchFlightOffers r g api = initErrJson m) := by
  rcases hv : validate r with _ | msg
  · rcases g with c | m | m
    · rcases hapi : api c (buildParams r) with body | m | m
      · exact Or.inl ⟨c, body, rfl, hapi, by simp [searchFlightOffers, hv, hapi]⟩
      · exact Or.inr (Or.inl ⟨"Amadeus API error: " ++ m,
          by simp [searchFlightOffers, hv, hapi]⟩)
      · exact Or.inr (Or.inl ⟨"Unexpected error: " ++ m,
          by simp [searchFlightOffers, hv, hapi]⟩)
    · exact Or.inr (Or.inr (Or.inl ⟨m, by simp [searchFlightOffers, hv]⟩))
    · exact Or.inr (Or.inr (Or.inr ⟨m, by simp [searchFlightOffers, hv]⟩))
  · exact Or.inr (Or.inl ⟨msg, by simp [searchFlightOffers, hv]⟩)

end AmadeusServer
